import Mathlib

/-!
Shallow embedding of the action-controller API gateway
(`src/index.ts`, `src/router.ts`, `src/services/hr.ts`,
`src/services/httpClient.ts`).

Runtime JavaScript values flowing through the gateway are modelled by the
inductive `Json` (with an `undef` constructor for JavaScript `undefined`,
which arises from destructuring a missing field).  JavaScript objects are
association lists `List (String × Json)` with unique keys; property
assignment / object-spread is `setKV`, property lookup is `lookupKV`.
Bracket access on the registry object walks the prototype chain
(`registryAccess`): a key naming an `Object.prototype` property yields
that truthy inherited value rather than `undefined`.
The downstream network is an explicit environment `Env`: a function from
the outbound wire request to the downstream behaviour (network failure,
or a reply with a status and a body that either parses as JSON or does
not).  Every forwarding function additionally returns the list of wire
requests it issued, so that "the Forwarder was never invoked" is the
statement that this list is empty.
-/

/-- Model of a runtime JavaScript/JSON value. `undef` models JavaScript
`undefined` (the result of reading an absent property). -/
inductive Json where
  | undef : Json
  | null : Json
  | bool : Bool → Json
  | num : Int → Json
  | str : String → Json
  | arr : List Json → Json
  | obj : List (String × Json) → Json
deriving Inhabited

/-- JavaScript truthiness of a value (`!x` in the validation code of
`src/index.ts` branches on this). -/
def Json.truthy : Json → Bool
  | .undef => false
  | .null => false
  | .bool b => b
  | .num n => n != 0
  | .str s => s != ""
  | .arr _ => true
  | .obj _ => true

mutual

/-- JavaScript string coercion `String(v)`, used by property access
`actionRegistry[action]` and by the template literal
`Unknown action: ${action}` when `action` is not a string. -/
def Json.toJSString : Json → String
  | .undef => "undefined"
  | .null => "null"
  | .bool b => cond b "true" "false"
  | .num n => toString n
  | .str s => s
  | .arr xs => jsArrJoin xs
  | .obj _ => "[object Object]"

/-- Comma-join of array elements under JavaScript `Array.prototype.toString`
(`null` and `undefined` elements render as the empty string). -/
def jsArrJoin : List Json → String
  | [] => ""
  | [Json.undef] => ""
  | [Json.null] => ""
  | [j] => Json.toJSString j
  | Json.undef :: rest => "," ++ jsArrJoin rest
  | Json.null :: rest => "," ++ jsArrJoin rest
  | j :: rest => Json.toJSString j ++ "," ++ jsArrJoin rest

end

/-- JavaScript property assignment on an object with unique keys: replace
the binding if the key is present, append it otherwise.  This is the
semantics of each step of an object-spread `{...a, ...b}` and of the
shorthand property `mode` in `{...args, mode}`. -/
def setKV {α : Type} : List (String × α) → String → α → List (String × α)
  | [], k, v => [(k, v)]
  | p :: t, k, v => if p.1 = k then (k, v) :: t else p :: setKV t k v

/-- JavaScript property lookup on an object: the value bound to the key,
if any. -/
def lookupKV {α : Type} (l : List (String × α)) (k : String) : Option α :=
  (l.find? (fun p => p.1 = k)).map (fun p => p.2)

/-- JavaScript object-spread `{...a, ...b}`: every binding of `b` is
assigned, in order, on top of `a` (later bindings overwrite earlier ones
with the same key). -/
def spreadKV {α : Type} (a b : List (String × α)) : List (String × α) :=
  b.foldl (fun acc p => setKV acc p.1 p.2) a

/-- Reading a field out of the inbound request body object
(`const { action, args, mode } = req.body`): an absent field reads as
JavaScript `undefined`. -/
def getField (fields : List (String × Json)) (k : String) : Json :=
  match lookupKV fields k with
  | some v => v
  | none => Json.undef

/-- JavaScript object-spread of an arbitrary value `{...v}` as it occurs
in the body construction `{...args, mode}` of `routeAction`: objects
spread their own fields, strings and arrays spread index-keyed entries,
and every other value spreads to no entries. -/
def jsSpread : Json → List (String × Json)
  | .obj fields => fields
  | .str s => (s.data.enum).map (fun p => (toString p.1, Json.str (String.singleton p.2)))
  | .arr xs => (xs.enum).map (fun p => (toString p.1, p.2))
  | _ => []

/-- Route descriptor from `src/router.ts`: the `ServiceConfig` interface
with a target `url` and an HTTP `method`. -/
structure ServiceConfig where
  url : String
  method : String
deriving Inhabited

/-- Per-service partial registry from `src/services/hr.ts`, parametrised
by the base URL `process.env.HR_SERVICE_URL || 'http://localhost:3001'`. -/
def hrServiceConfig (base : String) : List (String × ServiceConfig) :=
  [ ("CreateEmployee", { url := base ++ "/employees/create", method := "POST" }),
    ("UpdateEmployee", { url := base ++ "/employees/update", method := "POST" }),
    ("DeleteEmployee", { url := base ++ "/employees/delete", method := "POST" }),
    ("GetEmployee", { url := base ++ "/employees/get", method := "GET" }) ]

/-- The module-level registry of `src/router.ts`:
`const actionRegistry = { ...hrServiceConfig }`. -/
def actionRegistry (base : String) : List (String × ServiceConfig) :=
  spreadKV [] (hrServiceConfig base)

/-- `getRegisteredActions` of `src/router.ts`:
`Object.keys(actionRegistry)` in insertion order. -/
def getRegisteredActions (base : String) : List String :=
  (actionRegistry base).map (fun p => p.1)

/-- Options argument of `makeRequest` (`HttpClientOptions` in
`src/services/httpClient.ts`); the call site in `routeAction` leaves
`headers` at its default `{}`.  `method = none` models the runtime
value `undefined` (as read off an inherited prototype member), on which
the destructuring default `method = 'POST'` fires. -/
structure HttpOptions where
  method : Option String
  headers : List (String × String)
  body : Option Json

/-- The outbound wire request produced by `makeRequest`'s call to
`fetch`.  `body = some j` means `JSON.stringify j` was sent as the
request body; `body = none` means no body was sent. -/
structure WireRequest where
  url : String
  method : String
  headers : List (String × String)
  body : Option Json

/-- Behaviour of the downstream service for one wire request:
`netError m` models `fetch` rejecting with an error whose message is
`m`; `reply status (.error m)` models a response whose body fails
`response.json()` with message `m`; `reply status (.ok d)` models a
response (of any status) whose body parses to `d`. -/
inductive DownstreamReply where
  | netError : String → DownstreamReply
  | reply : Nat → Except String Json → DownstreamReply

/-- The downstream network as a deterministic environment. -/
abbrev Env := WireRequest → DownstreamReply

/-- The `{status, data}` value returned by `makeRequest`. -/
structure ForwardResult where
  status : Nat
  data : Json
deriving Inhabited

/-- The wire request `makeRequest url opts` hands to `fetch`: the
`Content-Type: application/json` header merged (by object spread) with
the caller's headers, and the body `body ? JSON.stringify(body) :
undefined` — serialized exactly when the body value is truthy. -/
def wireOf (url : String) (opts : HttpOptions) : WireRequest :=
  { url := url,
    method := opts.method.getD "POST",
    headers := spreadKV [("Content-Type", "application/json")] opts.headers,
    body := match opts.body with
      | some j => if j.truthy then some j else none
      | none => none }

/-- `makeRequest` of `src/services/httpClient.ts`: issue the wire
request; on a reply, parse the body as JSON regardless of status and
return `{status, data}`; rethrow a network error or a JSON-parse error.
`url = none` models the runtime value `undefined` reaching the `url`
parameter: `fetch(undefined, ...)` then rejects deterministically while
parsing the URL (`Failed to parse URL from undefined`), before any
network request is issued, and the catch block rethrows.  The second
component records the wire requests issued (exactly one whenever the
URL parses). -/
def makeRequest (env : Env) (url : Option String) (opts : HttpOptions) :
    Except String ForwardResult × List WireRequest :=
  match url with
  | none => (Except.error "Failed to parse URL from undefined", [])
  | some u =>
      let wire := wireOf u opts
      match env wire with
      | .netError m => (Except.error m, [wire])
      | .reply _ (Except.error m) => (Except.error m, [wire])
      | .reply s (Except.ok d) => (Except.ok { status := s, data := d }, [wire])

/-- The own property names of `Object.prototype`, inherited by every
plain object literal such as `actionRegistry`.  Each of them holds a
truthy value (a function, or for `__proto__` the prototype object
itself). -/
def objectProtoKeys : List String :=
  ["constructor", "__defineGetter__", "__defineSetter__", "hasOwnProperty",
   "__lookupGetter__", "__lookupSetter__", "isPrototypeOf",
   "propertyIsEnumerable", "toString", "toLocaleString", "valueOf", "__proto__"]

/-- The value produced by a JavaScript bracket access on a plain object
literal: an own key yields its bound route descriptor; a key naming an
`Object.prototype` property yields that truthy inherited value, whose
`url` and `method` properties read as `undefined`; any other key yields
`undefined`. -/
inductive PropValue where
  | config : ServiceConfig → PropValue
  | protoFn : PropValue
  | undef : PropValue

/-- The bracket access `actionRegistry[action]` of `src/router.ts`:
own keys first, then the prototype chain (`Object.prototype`), else
`undefined`. -/
def registryAccess (reg : List (String × ServiceConfig)) (k : String) : PropValue :=
  match lookupKV reg k with
  | some cfg => PropValue.config cfg
  | none => if k ∈ objectProtoKeys then PropValue.protoFn else PropValue.undef

/-- `routeAction` of `src/router.ts`: read
`actionRegistry[action]` (property access string-coerces a non-string
action and walks the prototype chain), throw `Unknown action: ${action}`
only when the accessed value is falsy (`undefined`), otherwise forward
with body `{...args, mode}` to `serviceConfig.url` and
`serviceConfig.method` — which are both `undefined` when the access hit
an inherited `Object.prototype` member.  An `Except.error` models the
thrown error by its message; the second component records the wire
requests issued. -/
def routeAction (base : String) (env : Env) (action args mode : Json) :
    Except String ForwardResult × List WireRequest :=
  match registryAccess (actionRegistry base) action.toJSString with
  | PropValue.undef => (Except.error ("Unknown action: " ++ action.toJSString), [])
  | PropValue.config cfg =>
      makeRequest env (some cfg.url)
        { method := some cfg.method,
          headers := [],
          body := some (Json.obj (setKV (jsSpread args) "mode" mode)) }
  | PropValue.protoFn =>
      makeRequest env none
        { method := none,
          headers := [],
          body := some (Json.obj (setKV (jsSpread args) "mode" mode)) }

/-- An HTTP response written back to the original client by the entry
handler: `res.status(status).json(body)`. -/
structure HttpResponse where
  status : Nat
  body : Json
deriving Inhabited

/-- The `availableActions` array of the 404 response:
`getRegisteredActions()` as a JSON array of strings. -/
def availableActionsJson (base : String) : Json :=
  Json.arr ((getRegisteredActions base).map Json.str)

/-- JavaScript `message.startsWith(p)`: a character-level prefix test. -/
def strStartsWith (p s : String) : Bool :=
  p.data.isPrefixOf s.data

/-- The `['simulate', 'execute'].includes(mode)` check of
`src/index.ts`: under SameValueZero, a runtime value is in that list
exactly when it is one of those two strings. -/
def modeIncluded : Json → Bool
  | .str s => s == "simulate" || s == "execute"
  | _ => false

/-- The `POST /actions/execute` handler of `src/index.ts`: destructure
the body, run the three truthiness/membership validation checks, call
`routeAction`, reflect its `{status, data}` on success, and classify a
caught error by whether its message starts with `Unknown action:`
(modelled by `strStartsWith`).  The second component records the
wire requests issued while serving the request. -/
def handleExecute (base : String) (env : Env) (reqBody : List (String × Json)) :
    HttpResponse × List WireRequest :=
  let action := getField reqBody "action"
  let args := getField reqBody "args"
  let mode := getField reqBody "mode"
  if !action.truthy then
    ({ status := 400, body := Json.obj [("error", Json.str "Missing required field: action")] }, [])
  else if !args.truthy then
    ({ status := 400, body := Json.obj [("error", Json.str "Missing required field: args")] }, [])
  else if !mode.truthy || !modeIncluded mode then
    ({ status := 400,
       body := Json.obj [("error", Json.str "Invalid or missing mode. Must be \"simulate\" or \"execute\"")] }, [])
  else
    match routeAction base env action args mode with
    | (Except.ok r, tr) => ({ status := r.status, body := r.data }, tr)
    | (Except.error m, tr) =>
        if strStartsWith "Unknown action:" m then
          ({ status := 404,
             body := Json.obj [("error", Json.str m),
                               ("availableActions", availableActionsJson base)] }, tr)
        else
          ({ status := 500,
             body := Json.obj [("error", Json.str "Internal server error"),
                               ("message", Json.str m)] }, tr)

/-- A sequence of inbound requests served by the process: each request
is handled against the same registry and downstream environment, with
no other state carried between requests (the handler closes over no
mutable variable in the source). -/
def processRequests (base : String) (env : Env)
    (reqs : List (List (String × Json))) : List (HttpResponse × List WireRequest) :=
  reqs.map (handleExecute base env)

/-! ### Lookup and merge lemmas -/

/-- Property lookup on a cons cell. -/
theorem lookupKV_cons {α : Type} (p : String × α) (t : List (String × α)) (k : String) :
    lookupKV (p :: t) k = if p.1 = k then some p.2 else lookupKV t k := by
  by_cases h : p.1 = k <;> simp [lookupKV, List.find?_cons, h]

/-- After assigning key `k`, looking up `k` yields the assigned value. -/
theorem lookupKV_setKV_self {α : Type} (l : List (String × α)) (k : String) (v : α) :
    lookupKV (setKV l k v) k = some v := by
  induction l with
  | nil => simp [setKV, lookupKV, List.find?]
  | cons p t ih =>
      by_cases hp : p.1 = k
      · simp [setKV, hp, lookupKV_cons]
      · simp [setKV, hp, lookupKV_cons, ih]

/-- Assigning key `k` does not change the lookup of any other key. -/
theorem lookupKV_setKV_other {α : Type} (l : List (String × α)) (k : String) (v : α)
    (k' : String) (h : k' ≠ k) :
    lookupKV (setKV l k v) k' = lookupKV l k' := by
  have hne : k ≠ k' := Ne.symm h
  induction l with
  | nil => simp [setKV, lookupKV_cons, lookupKV, hne]
  | cons p t ih =>
      by_cases hp : p.1 = k
      · have hp' : p.1 ≠ k' := by rw [hp]; exact hne
        simp only [setKV, if_pos hp, lookupKV_cons, if_neg hne, if_neg hp']
      · by_cases hq : p.1 = k'
        · simp only [setKV, if_neg hp, lookupKV_cons, if_pos hq]
        · simp only [setKV, if_neg hp, lookupKV_cons, if_neg hq, ih]

/-- Spreading a mapping that does not bind `k` leaves the lookup of `k`
unchanged. -/
theorem lookupKV_spreadKV_of_not_mem {α : Type} (b : List (String × α)) :
    ∀ (a : List (String × α)) (k : String), k ∉ b.map Prod.fst →
      lookupKV (spreadKV a b) k = lookupKV a k := by
  induction b with
  | nil => intro a k _; rfl
  | cons p t ih =>
      intro a k hk
      simp only [List.map_cons, List.mem_cons] at hk
      push_neg at hk
      have step : spreadKV a (p :: t) = spreadKV (setKV a p.1 p.2) t := rfl
      rw [step, ih _ k hk.2, lookupKV_setKV_other a p.1 p.2 k hk.1]

/-- Spreading a duplicate-free mapping `b` on top of anything resolves
every key bound by `b` to `b`'s value. -/
theorem lookupKV_spreadKV_of_mem {α : Type} (b : List (String × α)) :
    ∀ (a : List (String × α)) (k : String) (v : α),
      (b.map Prod.fst).Nodup → lookupKV b k = some v →
      lookupKV (spreadKV a b) k = some v := by
  induction b with
  | nil => intro a k v _ hb; simp [lookupKV] at hb
  | cons p t ih =>
      intro a k v hnd hb
      have step : spreadKV a (p :: t) = spreadKV (setKV a p.1 p.2) t := rfl
      simp only [List.map_cons, List.nodup_cons] at hnd
      rw [lookupKV_cons] at hb
      by_cases hp : p.1 = k
      · rw [if_pos hp] at hb
        obtain rfl : p.2 = v := Option.some.inj hb
        rw [step, lookupKV_spreadKV_of_not_mem t _ k (hp ▸ hnd.1)]
        rw [← hp, lookupKV_setKV_self]
      · rw [if_neg hp] at hb
        rw [step]
        exact ih _ k v hnd.2 hb

/-- Character-level prefix test: a string is a prefix of itself followed
by anything. -/
theorem strStartsWith_append (p a : String) :
    strStartsWith p (p ++ a) = true := by
  have hdata : (p ++ a).data = p.data ++ a.data := rfl
  unfold strStartsWith
  rw [hdata]
  induction p.data with
  | nil => simp [List.isPrefixOf]
  | cons c cs ih => simp [List.isPrefixOf, ih]

/-! ### Claims -/

/-- C1: for every request `{action, args, mode}` whose action is a key of
the registry, `routeAction` delegates to `makeRequest` with exactly the
registered descriptor's URL and method and with body equal to the
shallow merge of `args` with `{mode}`: the merged object binds `"mode"`
to the request's mode (overwriting any `"mode"` key already in `args`)
and binds every other key exactly as `args` does. -/
theorem routeAction_forwards_merged_payload (base : String) (env : Env)
    (a : String) (args : List (String × Json)) (m : String) (cfg : ServiceConfig)
    (h : lookupKV (actionRegistry base) a = some cfg) :
    routeAction base env (Json.str a) (Json.obj args) (Json.str m)
      = makeRequest env (some cfg.url)
          { method := some cfg.method, headers := [],
            body := some (Json.obj (setKV args "mode" (Json.str m))) }
    ∧ lookupKV (setKV args "mode" (Json.str m)) "mode" = some (Json.str m)
    ∧ ∀ k, k ≠ "mode" → lookupKV (setKV args "mode" (Json.str m)) k = lookupKV args k := by
  refine ⟨?_, lookupKV_setKV_self _ _ _, fun k hk => lookupKV_setKV_other _ _ _ _ hk⟩
  simp [routeAction, registryAccess, Json.toJSString, jsSpread, h]

/-- Witness for C1 at the action `CreateEmployee` of the default
registry, with an `args` object that already carries a `mode` key. -/
theorem routeAction_forwards_merged_payload_witness :
    routeAction "http://localhost:3001"
        (fun _ => DownstreamReply.reply 200 (Except.ok Json.null))
        (Json.str "CreateEmployee")
        (Json.obj [("name", Json.str "Alice Smith"), ("mode", Json.str "stale")])
        (Json.str "execute")
      = makeRequest (fun _ => DownstreamReply.reply 200 (Except.ok Json.null))
          (some "http://localhost:3001/employees/create")
          { method := some "POST", headers := [],
            body := some (Json.obj (setKV [("name", Json.str "Alice Smith"), ("mode", Json.str "stale")]
              "mode" (Json.str "execute"))) } :=
  (routeAction_forwards_merged_payload "http://localhost:3001"
    (fun _ => DownstreamReply.reply 200 (Except.ok Json.null))
    "CreateEmployee" [("name", Json.str "Alice Smith"), ("mode", Json.str "stale")] "execute"
    { url := "http://localhost:3001/employees/create", method := "POST" } (by rfl)).1

/-- C2 counterexample: the action name `toString` is not a key of the
registry, yet dispatch neither fails with `Unknown action: toString`
nor leaves the Forwarder uninvoked.  The bracket access
`actionRegistry["toString"]` finds the truthy inherited
`Object.prototype.toString`, the throw is skipped, and `makeRequest` is
called with `serviceConfig.url` and `serviceConfig.method` read off
that function — both `undefined` — so `fetch` rejects while parsing the
URL.  First conjunct: dispatch delegates to `makeRequest` with an
undefined URL; second conjunct: the resulting error is the URL-parse
failure, not an unknown-action error. -/
theorem routeAction_proto_counterexample :
    routeAction "http://localhost:3001"
        (fun _ => DownstreamReply.reply 200 (Except.ok Json.null))
        (Json.str "toString") (Json.obj []) (Json.str "execute")
      = makeRequest (fun _ => DownstreamReply.reply 200 (Except.ok Json.null)) none
          { method := none, headers := [],
            body := some (Json.obj (setKV [] "mode" (Json.str "execute"))) }
    ∧ routeAction "http://localhost:3001"
        (fun _ => DownstreamReply.reply 200 (Except.ok Json.null))
        (Json.str "toString") (Json.obj []) (Json.str "execute")
      = (Except.error "Failed to parse URL from undefined", []) :=
  And.intro (by rfl) (by rfl)

/-- C2 (amended): for every action name that is neither a key of the
registry nor the name of an inherited `Object.prototype` property,
`routeAction` fails with the error message `Unknown action: <name>`
carrying exactly that name, and issues no wire request (the Forwarder
is never invoked).  An unknown name that does match an
`Object.prototype` property (`toString`, `valueOf`, ...) instead
escapes the check and is handed to the Forwarder with an undefined URL
(see the counterexample). -/
theorem routeAction_unknown_action (base : String) (env : Env)
    (a : String) (args mode : Json)
    (h : lookupKV (actionRegistry base) a = none)
    (hp : a ∉ objectProtoKeys) :
    routeAction base env (Json.str a) args mode
      = (Except.error ("Unknown action: " ++ a), []) := by
  simp [routeAction, registryAccess, Json.toJSString, h, hp]

/-- Witness for C2 (amended) at the unknown action `DeleteUniverse`. -/
theorem routeAction_unknown_action_witness :
    routeAction "http://localhost:3001"
        (fun _ => DownstreamReply.reply 200 (Except.ok Json.null))
        (Json.str "DeleteUniverse") (Json.obj []) (Json.str "execute")
      = (Except.error "Unknown action: DeleteUniverse", []) :=
  routeAction_unknown_action "http://localhost:3001"
    (fun _ => DownstreamReply.reply 200 (Except.ok Json.null))
    "DeleteUniverse" (Json.obj []) (Json.str "execute") (by rfl) (by decide)

/-- C6: registry construction by object spread is last-write-wins: if
two partial mappings both bind the action name `x`, the spread of the
second on top of the first resolves `x` to the second's descriptor.
The spread is a total function, so a collision can never fail. -/
theorem registry_merge_last_write_wins
    (A B : List (String × ServiceConfig)) (x : String) (cfgA cfgB : ServiceConfig)
    (hnd : (B.map Prod.fst).Nodup)
    (_hA : lookupKV A x = some cfgA) (hB : lookupKV B x = some cfgB) :
    lookupKV (spreadKV A B) x = some cfgB :=
  lookupKV_spreadKV_of_mem B A x cfgB hnd hB

/-- Witness for C6: two one-entry partial mappings colliding on `X`
resolve to the later descriptor. -/
theorem registry_merge_last_write_wins_witness :
    lookupKV (spreadKV [("X", ({ url := "http://first/a", method := "POST" } : ServiceConfig))]
                       [("X", ({ url := "http://second/b", method := "GET" } : ServiceConfig))]) "X"
      = some ({ url := "http://second/b", method := "GET" } : ServiceConfig) :=
  registry_merge_last_write_wins
    [("X", ({ url := "http://first/a", method := "POST" } : ServiceConfig))]
    [("X", ({ url := "http://second/b", method := "GET" } : ServiceConfig))] "X"
    ({ url := "http://first/a", method := "POST" } : ServiceConfig)
    ({ url := "http://second/b", method := "GET" } : ServiceConfig)
    (by decide) (by rfl) (by rfl)

/-- Helper: on a request whose `action` is a non-empty string, whose
`args` is an object, and whose `mode` is `"simulate"` or `"execute"`,
the handler passes all three validation checks and continues with the
dispatch result. -/
theorem handleExecute_valid_step (base : String) (env : Env)
    (a : String) (args : List (String × Json)) (m : String)
    (ha : a ≠ "") (hm : m = "simulate" ∨ m = "execute") :
    handleExecute base env [("action", Json.str a), ("args", Json.obj args), ("mode", Json.str m)]
      = match routeAction base env (Json.str a) (Json.obj args) (Json.str m) with
        | (Except.ok r, tr) => ({ status := r.status, body := r.data }, tr)
        | (Except.error msg, tr) =>
            if strStartsWith "Unknown action:" msg then
              ({ status := 404,
                 body := Json.obj [("error", Json.str msg),
                                   ("availableActions", availableActionsJson base)] }, tr)
            else
              ({ status := 500,
                 body := Json.obj [("error", Json.str "Internal server error"),
                                   ("message", Json.str msg)] }, tr) := by
  have hta : (Json.str a).truthy = true := by simp [Json.truthy, ha]
  have hobj : (Json.obj args).truthy = true := rfl
  have htm : modeIncluded (Json.str m) = true := by rcases hm with rfl | rfl <;> rfl
  have htmt : (Json.str m).truthy = true := by rcases hm with rfl | rfl <;> rfl
  have gact : getField [("action", Json.str a), ("args", Json.obj args), ("mode", Json.str m)]
      "action" = Json.str a := rfl
  have gargs : getField [("action", Json.str a), ("args", Json.obj args), ("mode", Json.str m)]
      "args" = Json.obj args := rfl
  have gmode : getField [("action", Json.str a), ("args", Json.obj args), ("mode", Json.str m)]
      "mode" = Json.str m := rfl
  simp only [handleExecute, gact, gargs, gmode, hta, hobj, htm, htmt]
  simp

/-- C3 counterexample: for the request
`{action: 123, args: {}, mode: "execute"}` the `action` value is not a
string at all, yet the handler does not answer 400: the truthiness
check passes the number, the dispatcher is invoked, and the response is
the 404 unknown-action response (the number was coerced to the property
key `"123"`). -/
theorem handleExecute_typecheck_counterexample :
    (handleExecute "http://localhost:3001"
        (fun _ => DownstreamReply.reply 200 (Except.ok Json.null))
        [("action", Json.num 123), ("args", Json.obj []), ("mode", Json.str "execute")]).1.status
      = 404 := by rfl

/-- C3 (amended): the handler answers HTTP 400, without issuing any
wire request, whenever the `action` field is absent or falsy, whenever
the `args` field is absent or falsy, or whenever the `mode` field is
not exactly the string `"simulate"` or `"execute"`; each of the three
checks rejects on its own, whatever the other two fields hold.  The
checks are truthiness checks only: a truthy non-string `action` or a
truthy non-mapping `args` is not rejected. -/
theorem handleExecute_validation_rejects (base : String) (env : Env)
    (reqBody : List (String × Json))
    (h : (getField reqBody "action").truthy = false
       ∨ (getField reqBody "args").truthy = false
       ∨ modeIncluded (getField reqBody "mode") = false) :
    (handleExecute base env reqBody).1.status = 400
    ∧ (handleExecute base env reqBody).2 = [] := by
  cases ha : (getField reqBody "action").truthy
  · constructor <;> simp [handleExecute, ha]
  · cases hg : (getField reqBody "args").truthy
    · constructor <;> simp [handleExecute, ha, hg]
    · cases hm : modeIncluded (getField reqBody "mode")
      · constructor <;> simp [handleExecute, ha, hg, hm]
      · rcases h with h | h | h <;> simp_all

/-- Witness for C3 (amended): a request with no `action` field is
answered 400 with no wire request issued. -/
theorem handleExecute_validation_rejects_witness :
    (handleExecute "http://localhost:3001"
        (fun _ => DownstreamReply.reply 200 (Except.ok Json.null))
        [("args", Json.obj []), ("mode", Json.str "execute")]).1.status = 400
    ∧ (handleExecute "http://localhost:3001"
        (fun _ => DownstreamReply.reply 200 (Except.ok Json.null))
        [("args", Json.obj []), ("mode", Json.str "execute")]).2 = [] :=
  handleExecute_validation_rejects "http://localhost:3001"
    (fun _ => DownstreamReply.reply 200 (Except.ok Json.null))
    [("args", Json.obj []), ("mode", Json.str "execute")]
    (Or.inl (by rfl))

/-- C4: for a request that passes validation and resolves to a
registered action, whatever status and JSON body the downstream service
returns (2xx or not) is reflected verbatim to the client: if the
environment replies `(s, d)` to the forwarded wire request, the
handler's response is exactly status `s` with body `d`, and exactly
that one wire request was issued. -/
theorem handleExecute_reflects_downstream (base : String) (env : Env)
    (a : String) (args : List (String × Json)) (m : String) (cfg : ServiceConfig)
    (s : Nat) (d : Json)
    (ha : a ≠ "") (hm : m = "simulate" ∨ m = "execute")
    (hcfg : lookupKV (actionRegistry base) a = some cfg)
    (henv : env (wireOf cfg.url
        { method := some cfg.method, headers := [],
          body := some (Json.obj (setKV args "mode" (Json.str m))) })
      = DownstreamReply.reply s (Except.ok d)) :
    handleExecute base env [("action", Json.str a), ("args", Json.obj args), ("mode", Json.str m)]
      = ({ status := s, body := d },
         [wireOf cfg.url
           { method := some cfg.method, headers := [],
             body := some (Json.obj (setKV args "mode" (Json.str m))) }]) := by
  rw [handleExecute_valid_step base env a args m ha hm]
  have hroute : routeAction base env (Json.str a) (Json.obj args) (Json.str m)
      = (Except.ok { status := s, data := d },
         [wireOf cfg.url
           { method := some cfg.method, headers := [],
             body := some (Json.obj (setKV args "mode" (Json.str m))) }]) := by
    simp [routeAction, registryAccess, Json.toJSString, jsSpread, hcfg, makeRequest, henv]
  rw [hroute]

/-- Witness for C4: a downstream 503 with a JSON body is reflected
verbatim as the client's 503 response. -/
theorem handleExecute_reflects_downstream_witness :
    handleExecute "http://localhost:3001"
        (fun _ => DownstreamReply.reply 503 (Except.ok (Json.obj [("oops", Json.bool true)])))
        [("action", Json.str "UpdateEmployee"), ("args", Json.obj [("id", Json.num 7)]),
         ("mode", Json.str "simulate")]
      = ({ status := 503, body := Json.obj [("oops", Json.bool true)] },
         [wireOf "http://localhost:3001/employees/update"
           { method := some "POST", headers := [],
             body := some (Json.obj (setKV [("id", Json.num 7)] "mode" (Json.str "simulate"))) }]) :=
  handleExecute_reflects_downstream "http://localhost:3001"
    (fun _ => DownstreamReply.reply 503 (Except.ok (Json.obj [("oops", Json.bool true)])))
    "UpdateEmployee" [("id", Json.num 7)] "simulate"
    { url := "http://localhost:3001/employees/update", method := "POST" }
    503 (Json.obj [("oops", Json.bool true)])
    (by decide) (Or.inl rfl) (by rfl) (by rfl)

/-- C5 counterexample: the request `{action: "toString", args: {},
mode: "execute"}` names an action absent from the registry, yet the
handler does not answer the 404 unknown-action response: the bracket
access finds the inherited `Object.prototype.toString`, dispatch
forwards to an undefined URL, `fetch` rejects while parsing it, and the
caught message does not start with `Unknown action:`, so the client
receives the generic 500 response. -/
theorem handleExecute_proto_counterexample :
    (handleExecute "http://localhost:3001"
        (fun _ => DownstreamReply.reply 200 (Except.ok Json.null))
        [("action", Json.str "toString"), ("args", Json.obj []),
         ("mode", Json.str "execute")]).1
      = { status := 500,
          body := Json.obj [("error", Json.str "Internal server error"),
                            ("message", Json.str "Failed to parse URL from undefined")] } := by
  rfl

/-- C5 (amended): a validated request naming an unknown action that is
not the name of an inherited `Object.prototype` property is answered
404 with error string `Unknown action: <name>` and an
`availableActions` array exactly equal to `getRegisteredActions` at
call time, with no wire request issued.  An unknown name matching an
`Object.prototype` property (`toString`, `valueOf`, ...) is instead
answered 500 (see the counterexample). -/
theorem handleExecute_unknown_action_response (base : String) (env : Env)
    (a : String) (args : List (String × Json)) (m : String)
    (ha : a ≠ "") (hm : m = "simulate" ∨ m = "execute")
    (hcfg : lookupKV (actionRegistry base) a = none)
    (hp : a ∉ objectProtoKeys) :
    handleExecute base env [("action", Json.str a), ("args", Json.obj args), ("mode", Json.str m)]
      = ({ status := 404,
           body := Json.obj [("error", Json.str ("Unknown action: " ++ a)),
                             ("availableActions",
                              Json.arr ((getRegisteredActions base).map Json.str))] }, []) := by
  rw [handleExecute_valid_step base env a args m ha hm]
  have hroute : routeAction base env (Json.str a) (Json.obj args) (Json.str m)
      = (Except.error ("Unknown action: " ++ a), []) := by
    simp [routeAction, registryAccess, Json.toJSString, hcfg, hp]
  rw [hroute]
  have hsplit : ("Unknown action: " ++ a) = "Unknown action:" ++ (" " ++ a) := by
    rw [← String.append_assoc]
    rfl
  have hpre : strStartsWith "Unknown action:" ("Unknown action: " ++ a) = true := by
    rw [hsplit]; exact strStartsWith_append _ _
  simp [hpre, availableActionsJson]

/-- Witness for C5 (amended) at the unknown action `DeleteUniverse`
against the default registry. -/
theorem handleExecute_unknown_action_response_witness :
    handleExecute "http://localhost:3001"
        (fun _ => DownstreamReply.reply 200 (Except.ok Json.null))
        [("action", Json.str "DeleteUniverse"), ("args", Json.obj []),
         ("mode", Json.str "execute")]
      = ({ status := 404,
           body := Json.obj [("error", Json.str "Unknown action: DeleteUniverse"),
                             ("availableActions",
                              Json.arr ((getRegisteredActions "http://localhost:3001").map Json.str))] }, []) :=
  handleExecute_unknown_action_response "http://localhost:3001"
    (fun _ => DownstreamReply.reply 200 (Except.ok Json.null))
    "DeleteUniverse" [] "execute" (by decide) (Or.inr rfl) (by rfl) (by decide)

/-- A downstream behaviour on which `makeRequest` throws: the network
call cannot complete, or the response body is unparsable as JSON; `em`
is the message of the thrown error. -/
def transportFails (r : DownstreamReply) (em : String) : Prop :=
  r = DownstreamReply.netError em ∨ ∃ s, r = DownstreamReply.reply s (Except.error em)

/-- C7 counterexample: a transport failure whose error message happens
to begin with `Unknown action:` is not surfaced as HTTP 500.  The
handler classifies caught errors by message prefix, so this forwarding
error — raised after the Forwarder issued its one wire request for the
registered action `CreateEmployee` — is answered with the 404
unknown-action response instead. -/
theorem forwarding_error_counterexample :
    (handleExecute "http://localhost:3001"
        (fun _ => DownstreamReply.netError "Unknown action: spoofed")
        [("action", Json.str "CreateEmployee"), ("args", Json.obj []),
         ("mode", Json.str "execute")]).1.status = 404
    ∧ (handleExecute "http://localhost:3001"
        (fun _ => DownstreamReply.netError "Unknown action: spoofed")
        [("action", Json.str "CreateEmployee"), ("args", Json.obj []),
         ("mode", Json.str "execute")]).2.length = 1 :=
  And.intro (by rfl) (by rfl)

/-- C7 (amended): `makeRequest` parses the downstream body as JSON
regardless of status and throws exactly when the network call cannot
complete or the body is unparsable (first conjunct, an iff); and a
transport error reaching the entry handler from a dispatched action is
surfaced as HTTP 500 carrying the underlying message, provided that
message does not itself begin with `Unknown action:` (a message with
that prefix is instead classified as an unknown-action failure and
surfaced as 404, as the counterexample shows). -/
theorem forwarding_error_surfaced (base : String) (env : Env)
    (url : String) (opts : HttpOptions)
    (a : String) (args : List (String × Json)) (m : String) (cfg : ServiceConfig) (em : String)
    (ha : a ≠ "") (hm : m = "simulate" ∨ m = "execute")
    (hcfg : lookupKV (actionRegistry base) a = some cfg)
    (hfail : transportFails
      (env (wireOf cfg.url
        { method := some cfg.method, headers := [],
          body := some (Json.obj (setKV args "mode" (Json.str m))) })) em)
    (hnospoof : strStartsWith "Unknown action:" em = false) :
    ((makeRequest env (some url) opts).1 = Except.error em
       ↔ transportFails (env (wireOf url opts)) em)
    ∧ handleExecute base env
        [("action", Json.str a), ("args", Json.obj args), ("mode", Json.str m)]
      = ({ status := 500,
           body := Json.obj [("error", Json.str "Internal server error"),
                             ("message", Json.str em)] },
         [wireOf cfg.url
           { method := some cfg.method, headers := [],
             body := some (Json.obj (setKV args "mode" (Json.str m))) }]) := by
  constructor
  · cases henv : env (wireOf url opts) with
    | netError m' => simp [makeRequest, henv, transportFails]
    | reply s' e =>
        cases e with
        | error em' => simp [makeRequest, henv, transportFails]
        | ok d' => simp [makeRequest, henv, transportFails]
  · rw [handleExecute_valid_step base env a args m ha hm]
    have hroute : routeAction base env (Json.str a) (Json.obj args) (Json.str m)
        = (Except.error em,
           [wireOf cfg.url
             { method := some cfg.method, headers := [],
               body := some (Json.obj (setKV args "mode" (Json.str m))) }]) := by
      rcases hfail with hfail | ⟨s, hfail⟩ <;>
        simp [routeAction, registryAccess, Json.toJSString, jsSpread, hcfg, makeRequest, hfail]
    rw [hroute]
    simp [hnospoof]

/-- Witness for C7 (amended): a connection-refused failure on
`GetEmployee` is surfaced as 500 with the underlying message, after
exactly one wire request. -/
theorem forwarding_error_surfaced_witness :
    handleExecute "http://localhost:3001"
        (fun _ => DownstreamReply.netError "connect ECONNREFUSED")
        [("action", Json.str "GetEmployee"), ("args", Json.obj []),
         ("mode", Json.str "execute")]
      = ({ status := 500,
           body := Json.obj [("error", Json.str "Internal server error"),
                             ("message", Json.str "connect ECONNREFUSED")] },
         [wireOf "http://localhost:3001/employees/get"
           { method := some "GET", headers := [],
             body := some (Json.obj (setKV [] "mode" (Json.str "execute"))) }]) :=
  (forwarding_error_surfaced "http://localhost:3001"
    (fun _ => DownstreamReply.netError "connect ECONNREFUSED")
    "http://unused" { method := some "POST", headers := [], body := none }
    "GetEmployee" [] "execute"
    { url := "http://localhost:3001/employees/get", method := "GET" }
    "connect ECONNREFUSED"
    (by decide) (Or.inr rfl) (by rfl) (Or.inl rfl) (by rfl)).2

/-- C8: the pipeline is deterministic and stateless: against a fixed
registry base and a deterministic downstream environment, the response
to an inbound request does not depend on the requests served before it
— serving the same request at the end of any two histories yields
identical responses. -/
theorem pipeline_stateless (base : String) (env : Env)
    (hist1 hist2 : List (List (String × Json))) (r : List (String × Json)) :
    (processRequests base env (hist1 ++ [r])).getLast?
      = (processRequests base env (hist2 ++ [r])).getLast? := by
  simp [processRequests]

/-- C9: for every dispatched action (whatever the runtime values of
`args` and `mode`), the dispatch issues exactly one wire request, whose
body is present — the serialized non-null object carrying the key
`mode` — and which carries the `Content-Type: application/json` header;
the Forwarder's no-body branch is unreachable from dispatch.  The
registry hypothesis covers in particular the GET-method action
`GetEmployee`. -/
theorem routeAction_body_always_present (base : String) (env : Env)
    (action args mode : Json) (cfg : ServiceConfig)
    (hcfg : lookupKV (actionRegistry base) (Json.toJSString action) = some cfg) :
    (routeAction base env action args mode).2
      = [wireOf cfg.url
          { method := some cfg.method, headers := [],
            body := some (Json.obj (setKV (jsSpread args) "mode" mode)) }]
    ∧ (wireOf cfg.url
        { method := some cfg.method, headers := [],
          body := some (Json.obj (setKV (jsSpread args) "mode" mode)) }).body
      = some (Json.obj (setKV (jsSpread args) "mode" mode))
    ∧ lookupKV (setKV (jsSpread args) "mode" mode) "mode" = some mode
    ∧ lookupKV (wireOf cfg.url
        { method := some cfg.method, headers := [],
          body := some (Json.obj (setKV (jsSpread args) "mode" mode)) }).headers
        "Content-Type" = some "application/json" := by
  have htrace : ∀ (u : String) (o : HttpOptions), (makeRequest env (some u) o).2 = [wireOf u o] := by
    intro u o
    cases henv : env (wireOf u o) with
    | netError m => simp [makeRequest, henv]
    | reply s e => cases e <;> simp [makeRequest, henv]
  refine ⟨?_, rfl, lookupKV_setKV_self _ _ _, rfl⟩
  simp only [routeAction, registryAccess, hcfg]
  exact htrace _ _

/-- Witness for C9 at the GET-method action `GetEmployee`: the wire
request is forwarded with a serialized JSON body, never empty. -/
theorem routeAction_body_always_present_witness :
    (routeAction "http://localhost:3001"
        (fun _ => DownstreamReply.reply 200 (Except.ok Json.null))
        (Json.str "GetEmployee") (Json.obj [("id", Json.str "emp_123")])
        (Json.str "execute")).2
      = [wireOf "http://localhost:3001/employees/get"
          { method := some "GET", headers := [],
            body := some (Json.obj (setKV (jsSpread (Json.obj [("id", Json.str "emp_123")]))
              "mode" (Json.str "execute"))) }] :=
  (routeAction_body_always_present "http://localhost:3001"
    (fun _ => DownstreamReply.reply 200 (Except.ok Json.null))
    (Json.str "GetEmployee") (Json.obj [("id", Json.str "emp_123")]) (Json.str "execute")
    { url := "http://localhost:3001/employees/get", method := "GET" } (by rfl)).1

/-- C10: the handler classifies caught dispatch errors by message
prefix alone: on a validated request whose dispatch fails with message
`msg`, the response is the 404 unknown-action response (carrying `msg`
and `availableActions`) exactly when `msg` starts with
`Unknown action:`, and the generic 500 response (carrying `msg`)
otherwise — wherever the error originated. -/
theorem handleExecute_error_classification (base : String) (env : Env)
    (a : String) (args : List (String × Json)) (m : String)
    (msg : String) (tr : List WireRequest)
    (ha : a ≠ "") (hm : m = "simulate" ∨ m = "execute")
    (hr : routeAction base env (Json.str a) (Json.obj args) (Json.str m)
      = (Except.error msg, tr)) :
    handleExecute base env [("action", Json.str a), ("args", Json.obj args), ("mode", Json.str m)]
      = (if strStartsWith "Unknown action:" msg then
           { status := 404,
             body := Json.obj [("error", Json.str msg),
                               ("availableActions", availableActionsJson base)] }
         else
           { status := 500,
             body := Json.obj [("error", Json.str "Internal server error"),
                               ("message", Json.str msg)] }, tr) := by
  rw [handleExecute_valid_step base env a args m ha hm, hr]
  cases hp : strStartsWith "Unknown action:" msg <;> simp [hp]

/-- Witness for C10: the unknown-action error thrown for `Nope` starts
with the prefix, so the 404 branch is taken. -/
theorem handleExecute_error_classification_witness :
    handleExecute "http://localhost:3001"
        (fun _ => DownstreamReply.reply 200 (Except.ok Json.null))
        [("action", Json.str "Nope"), ("args", Json.obj []), ("mode", Json.str "simulate")]
      = (if strStartsWith "Unknown action:" "Unknown action: Nope" then
           { status := 404,
             body := Json.obj [("error", Json.str "Unknown action: Nope"),
                               ("availableActions", availableActionsJson "http://localhost:3001")] }
         else
           { status := 500,
             body := Json.obj [("error", Json.str "Internal server error"),
                               ("message", Json.str "Unknown action: Nope")] }, []) :=
  handleExecute_error_classification "http://localhost:3001"
    (fun _ => DownstreamReply.reply 200 (Except.ok Json.null))
    "Nope" [] "simulate" "Unknown action: Nope" []
    (by decide) (Or.inl rfl) (by rfl)
